import Mathlib

/-!
Verification of the PDF watermark-removal core (`pdf_processor.py`).

The model is a shallow embedding of the `PDFProcessor` class: pages are
records carrying the observations the code makes of a PyMuPDF page
(`page.rect.width/height`, `page.get_text("text")`, `page.get_images()`,
`page.get_image_rects(xref)`, `page.get_text("dict")["blocks"]`) plus the
list of rectangles drawn onto the page so far.  File sizes
(`os.path.getsize`) are modelled by a caller-supplied function from the
saved document's content to its byte size, and the external Ghostscript
invocation by an oracle describing its outcome.  Exceptions escaping a
call are modelled with `Except`.
-/

/-- A placement rectangle in absolute page units (`fitz.Rect`). -/
structure Rect where
  x0 : ℚ
  y0 : ℚ
  x1 : ℚ
  y1 : ℚ
deriving DecidableEq, Repr

/-- `rect.width` in PyMuPDF. -/
def Rect.width (r : Rect) : ℚ := r.x1 - r.x0

/-- `rect.height` in PyMuPDF. -/
def Rect.height (r : Rect) : ℚ := r.y1 - r.y0

/-- One entry of `page.get_images()`: `(xref, smask, width, height, ...)`;
the code reads indices 0, 2 and 3. -/
structure PdfImage where
  xref : Nat
  width : Nat
  height : Nat
deriving DecidableEq, Repr

/-- One text span of `page.get_text("dict")`: its text and font size. -/
structure Span where
  text : String
  size : ℚ
deriving DecidableEq, Repr

/-- One block of `page.get_text("dict")["blocks"]`: its `type` field and
its lines, each a list of spans. -/
structure Block where
  btype : Nat
  lines : List (List Span)
deriving DecidableEq, Repr

/-- A page as observed by the code. `imageRects` is the association
`xref ↦ page.get_image_rects(xref)`; `drawn` records the rectangles
painted by `page.draw_rect` so far (all fills in this program are opaque
white). -/
structure Page where
  width : ℚ
  height : ℚ
  text : String
  images : List PdfImage
  imageRects : List (Nat × List Rect)
  blocks : List Block
  drawn : List Rect
deriving DecidableEq, Repr

/-- `page.get_image_rects(xref)`. -/
def Page.getImageRects (p : Page) (xref : Nat) : List Rect :=
  match p.imageRects.lookup xref with
  | some rs => rs
  | none => []

/-- A document is its ordered sequence of pages. -/
abbrev Document := List Page

/-- The keyword configuration set up in `PDFProcessor.__init__`. -/
structure PDFProcessor where
  zh_keywords : List String
  en_keywords : List String
deriving DecidableEq, Repr

/-- `PDFProcessor()`: the fixed bilingual keyword sets. -/
def PDFProcessor.init : PDFProcessor :=
  { zh_keywords := ["全能", "扫描", "创建", "王"]
    en_keywords := ["CamScanner", "Scanned with", "Created by", "scan"] }

/-- `s.lower()` as a character list (ASCII lowering, which is what the
keywords exercise). -/
def strLower (s : String) : List Char := s.data.map Char.toLower

/-- Python's `kw in text` substring containment on character lists. -/
def containsSub (kw : List Char) : List Char → Bool
  | [] => kw.isEmpty
  | c :: rest => kw.isPrefixOf (c :: rest) || containsSub kw rest

/-- The Keyword Matcher:
`any(kw.lower() in text.lower() for kw in self.zh_keywords + self.en_keywords)`. -/
def hasWatermarkText (pr : PDFProcessor) (text : String) : Bool :=
  (pr.zh_keywords ++ pr.en_keywords).any fun kw =>
    containsSub (strLower kw) (strLower text)

/-- The Region Heuristic of `_remove_watermarks` (lines 146–156): the
relative-geometry test an image placement rectangle must pass to be
redacted. -/
def isWatermarkRect (page_width page_height : ℚ) (rect : Rect) : Bool :=
  let rel_x := rect.x0 / page_width
  let rel_y := rect.y0 / page_height
  let rel_height := rect.height / page_height
  let area := rect.width * rect.height
  let is_bottom_right := decide (rel_y > 0.7) && decide (rel_x > 0.65)
  let is_small := decide (area < 20000)
  let is_very_small_height := decide (rel_height < 0.12)
  is_bottom_right && is_small && is_very_small_height

/-- The image test of `scan_pdf` (lines 261–268): same bottom-right and
area checks, with no height condition. -/
def scanIsWatermark (page_width page_height : ℚ) (rect : Rect) : Bool :=
  let rel_x := rect.x0 / page_width
  let rel_y := rect.y0 / page_height
  let area := rect.width * rect.height
  let is_bottom_right := decide (rel_y > 0.7) && decide (rel_x > 0.65)
  let is_small := decide (area < 20000)
  is_bottom_right && is_small

/-- The fixed rectangle drawn when the Keyword Matcher fires
(lines 125–130). -/
def textWatermarkRect (w h : ℚ) : Rect :=
  ⟨w * 0.45, h * 0.88, w - 5, h - 5⟩

/-- The unconditional lower-right text safety-net rectangle
(lines 162–167). -/
def safetyTextRect (w h : ℚ) : Rect :=
  ⟨w * 0.5, h * 0.85, w - 2, h - 2⟩

/-- The unconditional bottom-right QR safety-net rectangle
(lines 170–175). -/
def safetyQrRect (w h : ℚ) : Rect :=
  ⟨w * 0.75, h * 0.85, w - 2, h - 2⟩

/-- Step 2 of the Page Redactor: the image placement rectangles redacted
on a page (for each image of `page.get_images()`, each placement passing
the Region Heuristic), in iteration order. -/
def qrRedactions (p : Page) : List Rect :=
  (p.images.map fun img =>
    (p.getImageRects img.xref).filter fun rect =>
      isWatermarkRect p.width p.height rect).flatten

/-- The per-page body of `_remove_watermarks` (lines 111–176): returns
the page with the redaction rectangles drawn on it, and the number of
times `watermarks_removed` was incremented on that page. -/
def redactPage (pr : PDFProcessor) (remove_text remove_qr : Bool) (p : Page) :
    Page × Nat :=
  let textRects :=
    if remove_text && hasWatermarkText pr p.text then
      [textWatermarkRect p.width p.height]
    else []
  let qrRects := if remove_qr then qrRedactions p else []
  let safetyRects :=
    if remove_text || remove_qr then
      [safetyTextRect p.width p.height, safetyQrRect p.width p.height]
    else []
  ({ p with drawn := p.drawn ++ textRects ++ qrRects ++ safetyRects },
   textRects.length + qrRects.length)

/-- `_remove_watermarks` on a whole document: the saved `_clean` document
and the final `watermarks_removed` counter (printed, then discarded by
the caller). -/
def removeWatermarks (pr : PDFProcessor) (remove_text remove_qr : Bool)
    (doc : Document) : Document × Nat :=
  let results := doc.map (redactPage pr remove_text remove_qr)
  (results.map Prod.fst, (results.map Prod.snd).sum)

/-- The redacted document `_remove_watermarks` writes for one input file. -/
def cleanDoc (pr : PDFProcessor) (remove_text remove_qr : Bool)
    (doc : Document) : Document :=
  (removeWatermarks pr remove_text remove_qr doc).1

/-- Sum over a batch of the per-file `watermarks_removed` counters: the
number of watermark redactions actually performed. -/
def totalRedactions (pr : PDFProcessor) (remove_text remove_qr : Bool)
    (files : List Document) : Nat :=
  (files.map fun f => (removeWatermarks pr remove_text remove_qr f).2).sum

/-- `_merge_pdfs`: a fresh `PdfWriter` accumulates every page of every
input document in list order. -/
def mergePdfs (docs : List Document) : Document :=
  docs.foldl (fun pdf_writer d => pdf_writer ++ d) []

/-- Outcome of the external Ghostscript invocation in `_compress_pdf`:
it succeeds and writes the compressed document, it exits non-zero
(`subprocess.CalledProcessError`, caught), or the `gs` binary is missing
(`FileNotFoundError` from `subprocess.run`, not caught). -/
inductive GsOutcome where
  | ok (compressed : Document)
  | exitNonZero
  | missing
deriving DecidableEq, Repr

/-- The stats dictionary returned by `process`. -/
structure Stats where
  pages : Nat
  files : Nat
  watermarks : Nat
  size_mb : ℚ
deriving DecidableEq, Repr

/-- Python's `round(x, 2)` on the exact rational value. -/
def round2 (q : ℚ) : ℚ := (round (q * 100) : ℤ) / 100

/-- `process(file_paths, remove_text, remove_qr, merge, compress)`.
`sizeOf` models `os.path.getsize` of a saved document; `gs` models the
Ghostscript invocation.  An uncaught Python exception is an
`Except.error`:
  * on an empty batch the loop body never runs and
    `processed_pdfs[0]` raises `IndexError`;
  * when Ghostscript exits non-zero, `_compress_pdf` returns
    `merged_path` itself, `process` then unconditionally removes
    `merged_path` (the very file `final_path` refers to), and the
    subsequent `os.path.getsize(final_path)` raises `FileNotFoundError`;
  * when the `gs` binary is missing, `subprocess.run` raises
    `FileNotFoundError`, which the `except CalledProcessError` clause
    does not catch. -/
def process (pr : PDFProcessor) (file_paths : List Document)
    (sizeOf : Document → Nat)
    (remove_text remove_qr merge compress : Bool) (gs : GsOutcome) :
    Except String (Document × Stats) :=
  match file_paths with
  | [] => Except.error "IndexError: processed_pdfs[0] on empty batch"
  | f0 :: rest =>
    if merge then
      let processed := file_paths.map (cleanDoc pr remove_text remove_qr)
      let total_pages := (processed.map List.length).sum
      if processed.length > 1 then
        let merged := mergePdfs processed
        if compress then
          match gs with
          | GsOutcome.ok compressed =>
            Except.ok (compressed,
              { pages := total_pages
                files := file_paths.length
                watermarks := 0
                size_mb := round2 ((sizeOf compressed : ℚ) / (1024 * 1024)) })
          | GsOutcome.exitNonZero =>
            Except.error "FileNotFoundError: final_path was removed"
          | GsOutcome.missing =>
            Except.error "FileNotFoundError: gs"
        else
          Except.ok (merged,
            { pages := total_pages
              files := file_paths.length
              watermarks := 0
              size_mb := round2 ((sizeOf merged : ℚ) / (1024 * 1024)) })
      else
        let final := cleanDoc pr remove_text remove_qr f0
        Except.ok (final,
          { pages := total_pages
            files := file_paths.length
            watermarks := 0
            size_mb := round2 ((sizeOf final : ℚ) / (1024 * 1024)) })
    else
      let clean0 := cleanDoc pr remove_text remove_qr f0
      Except.ok (clean0,
        { pages := clean0.length
          files := file_paths.length
          watermarks := 0
          size_mb := (sizeOf clean0 : ℚ) / (1024 * 1024) })

/-- One entry of `scan_pdf`'s `image_details` (the code stores the page
number and formats `rel_x`, `rel_y`, `rect.width`, `rect.height` into its
`position`/`size` strings; the record keeps those values). -/
structure ImageDetail where
  page : Nat
  rel_x : ℚ
  rel_y : ℚ
  width : ℚ
  height : ℚ
deriving DecidableEq, Repr

/-- One entry of `scan_pdf`'s `text_details`. -/
structure TextDetail where
  text : String
  size : ℚ
deriving DecidableEq, Repr

/-- The result dictionary of `scan_pdf`. -/
structure ScanReport where
  pages : Nat
  images : Nat
  has_text_watermark : Bool
  has_qr_watermark : Bool
  text_details : List TextDetail
  image_details : List ImageDetail
deriving DecidableEq, Repr

/-- The `image_details` entries `scan_pdf` records for one page
(0-indexed `pnum`; the code stores `page_num + 1`). -/
def pageImageDetails (pnum : Nat) (p : Page) : List ImageDetail :=
  (p.images.map fun img =>
    ((p.getImageRects img.xref).filter
        (scanIsWatermark p.width p.height)).map fun rect =>
      { page := pnum + 1
        rel_x := rect.x0 / p.width
        rel_y := rect.y0 / p.height
        width := rect.width
        height := rect.height }).flatten

/-- The `text_details` collected from `doc[0]` (lines 276–287): spans of
type-0 blocks whose stripped text has length strictly between 1 and 30. -/
def firstPageTextDetails (p : Page) : List TextDetail :=
  ((p.blocks.filter fun b => b.btype == 0).map fun b =>
    (b.lines.map fun line =>
      (line.filter fun span =>
        let t := span.text.trim
        decide (t.length < 30) && decide (t.length > 1)).map fun span =>
        { text := span.text.trim, size := span.size }).flatten).flatten

/-- `scan_pdf`: read-only analysis.  On a zero-page document every step
of the page loop is vacuous, but the unconditional `doc[0]` access for
the text sample raises `IndexError`. -/
def scanPdf (pr : PDFProcessor) (doc : Document) : Except String ScanReport :=
  match doc with
  | [] => Except.error "IndexError: doc[0] on zero-page document"
  | p0 :: _ =>
    Except.ok
      { pages := doc.length
        images := (doc.map fun p => p.images.length).sum
        has_text_watermark := doc.any fun p => hasWatermarkText pr p.text
        has_qr_watermark := doc.any fun p => p.images.any fun img =>
          (p.getImageRects img.xref).any (scanIsWatermark p.width p.height)
        text_details := firstPageTextDetails p0
        image_details :=
          (doc.enum.map fun pair => pageImageDetails pair.1 pair.2).flatten }

/-! ### Concrete documents used as witnesses and counterexamples -/

/-- A page with no text and no images. -/
def pageEmpty : Page :=
  { width := 600, height := 800, text := "", images := [], imageRects := [],
    blocks := [], drawn := [] }

/-- Scenario file A (spec §8): a single page carrying the CamScanner
banner text. -/
def fileA : Document :=
  [{ width := 600, height := 800, text := "已使用CamScanner扫描",
     images := [], imageRects := [], blocks := [], drawn := [] }]

/-- Scenario file B (spec §8): a 600×800 page with one 100×100-unit
image placed at (85% width, 90% height). -/
def fileB : Document :=
  [{ width := 600, height := 800, text := "",
     images := [⟨7, 100, 100⟩],
     imageRects := [(7, [⟨510, 720, 610, 820⟩])],
     blocks := [], drawn := [] }]

/-- An image placement passing `scan_pdf`'s three checks but failing the
Redactor's relative-height bound: 30×100 units at (500, 600) on a
600×800 page, so `rel_height = 0.125`. -/
def rectC4 : Rect := ⟨500, 600, 530, 700⟩

/-- A one-page document carrying only the `rectC4` image placement. -/
def docC4 : Document :=
  [{ width := 600, height := 800, text := "",
     images := [⟨3, 30, 100⟩],
     imageRects := [(3, [rectC4])],
     blocks := [], drawn := [] }]

/-! ### Helper lemmas -/

/-- Redaction rewrites pages in place, so the saved `_clean` document has
exactly the input's page count. -/
theorem cleanDoc_length (pr : PDFProcessor) (rt rq : Bool) (doc : Document) :
    (cleanDoc pr rt rq doc).length = doc.length := by
  simp [cleanDoc, removeWatermarks]

theorem foldl_append_eq_flatten (l : List Document) :
    ∀ acc : Document, l.foldl (fun pdf_writer d => pdf_writer ++ d) acc
      = acc ++ l.flatten := by
  induction l with
  | nil => intro acc; simp
  | cons d t ih => intro acc; simp [List.foldl, ih]

/-- `_merge_pdfs` produces exactly the concatenation of its inputs'
pages. -/
theorem mergePdfs_eq_flatten (docs : List Document) :
    mergePdfs docs = docs.flatten := by
  simpa [mergePdfs] using foldl_append_eq_flatten docs []

/-- C3: the Region Heuristic is the conjunction of the four bounds of
the spec — relative x-origin > 0.65, relative y-origin > 0.70,
area < 20000, relative height < 0.12 — so violating any single bound
makes the classification false. -/
theorem C3_regionHeuristic (pw ph : ℚ) (r : Rect) :
    isWatermarkRect pw ph r = true ↔
      (r.x0 / pw > 0.65 ∧ r.y0 / ph > 0.7 ∧
       r.width * r.height < 20000 ∧ r.height / ph < 0.12) := by
  simp only [isWatermarkRect, Bool.and_eq_true, decide_eq_true_eq]
  tauto

theorem C3_regionHeuristic_witness :
    isWatermarkRect 600 800 ⟨510, 720, 610, 805⟩ = true :=
  (C3_regionHeuristic 600 800 ⟨510, 720, 610, 805⟩).mpr
    (by norm_num [Rect.width, Rect.height])

/-- C5: whenever `remove_text` or `remove_qr` is set, the Page Redactor
draws both fixed safety-net rectangles on every page — independent of
the page's text, images, and of what steps 1–2 detected. -/
theorem C5_safetyNet (pr : PDFProcessor) (rt rq : Bool) (p : Page)
    (h : (rt || rq) = true) :
    safetyTextRect p.width p.height ∈ (redactPage pr rt rq p).1.drawn ∧
    safetyQrRect p.width p.height ∈ (redactPage pr rt rq p).1.drawn := by
  simp [redactPage, h]

theorem C5_safetyNet_witness :
    safetyTextRect pageEmpty.width pageEmpty.height ∈
      (redactPage PDFProcessor.init true false pageEmpty).1.drawn ∧
    safetyQrRect pageEmpty.width pageEmpty.height ∈
      (redactPage PDFProcessor.init true false pageEmpty).1.drawn :=
  C5_safetyNet PDFProcessor.init true false pageEmpty (by simp)

/-- C10: `scan_pdf` returns a report for every document with at least
one page, while on a zero-page document the unconditional `doc[0]`
access raises instead of returning a report. -/
theorem C10_scanNonEmpty (pr : PDFProcessor) (doc : Document) :
    (doc = [] →
      scanPdf pr doc = Except.error "IndexError: doc[0] on zero-page document") ∧
    (doc ≠ [] → ∃ rep, scanPdf pr doc = Except.ok rep) := by
  cases doc with
  | nil => simp [scanPdf]
  | cons p0 t => exact ⟨fun h => absurd h (List.cons_ne_nil p0 t), fun _ => ⟨_, rfl⟩⟩

theorem C10_scanNonEmpty_witness :
    scanPdf PDFProcessor.init [] =
      Except.error "IndexError: doc[0] on zero-page document" ∧
    ∃ rep, scanPdf PDFProcessor.init [pageEmpty] = Except.ok rep :=
  ⟨(C10_scanNonEmpty PDFProcessor.init []).1 rfl,
   (C10_scanNonEmpty PDFProcessor.init [pageEmpty]).2 (by simp)⟩

/-- C6: with `merge=false`, `process` returns during the first loop
iteration: the result is the first file's redacted copy, `pages` is the
first file's page count, `files` is the whole input list's length, and —
the right-hand side mentioning `rest` only through `rest.length` — the
remaining files' contents are never consulted. -/
theorem C6_mergeFalseEarlyReturn (pr : PDFProcessor) (f0 : Document)
    (rest : List Document) (sz : Document → Nat) (rt rq c : Bool)
    (gs : GsOutcome) :
    process pr (f0 :: rest) sz rt rq false c gs =
      Except.ok (cleanDoc pr rt rq f0,
        { pages := f0.length
          files := rest.length + 1
          watermarks := 0
          size_mb := (sz (cleanDoc pr rt rq f0) : ℚ) / (1024 * 1024) }) := by
  simp [process, cleanDoc_length]

/-- C7: `_merge_pdfs` concatenates its inputs' pages in input order
(in particular a 2-page and a 3-page document merge to the 5 pages in
A,A,B,B,B order), and with `merge=true` and at least two files `process`
returns exactly that concatenation of the redacted documents. -/
theorem C7_mergeOrder :
    (∀ docs : List Document, mergePdfs docs = docs.flatten) ∧
    (∀ a1 a2 b1 b2 b3 : Page,
      mergePdfs [[a1, a2], [b1, b2, b3]] = [a1, a2, b1, b2, b3]) ∧
    (∀ (pr : PDFProcessor) (f1 f2 : Document) (rest : List Document)
       (sz : Document → Nat) (rt rq : Bool) (gs : GsOutcome),
      process pr (f1 :: f2 :: rest) sz rt rq true false gs =
        Except.ok (((f1 :: f2 :: rest).map (cleanDoc pr rt rq)).flatten,
          { pages :=
              (((f1 :: f2 :: rest).map (cleanDoc pr rt rq)).map List.length).sum
            files := rest.length + 2
            watermarks := 0
            size_mb := round2
              ((sz (((f1 :: f2 :: rest).map (cleanDoc pr rt rq)).flatten) : ℚ) /
                (1024 * 1024)) })) := by
  refine ⟨mergePdfs_eq_flatten, ?_, ?_⟩
  · intro a1 a2 b1 b2 b3
    simp [mergePdfs_eq_flatten]
  · intro pr f1 f2 rest sz rt rq gs
    simp [process, mergePdfs_eq_flatten]

/-- C8 counterexample: a single-file batch with `merge=true` and
`compress=true` is NOT compressed — even with the `gs` binary missing
(which would raise `FileNotFoundError` were Ghostscript invoked),
`process` succeeds and returns the redacted file itself, so the
compression tool is never run. -/
theorem C8_counterexample :
    process PDFProcessor.init [fileB] (fun _ => 1000) true true true true
        GsOutcome.missing =
      Except.ok (cleanDoc PDFProcessor.init true true fileB,
        { pages := 1
          files := 1
          watermarks := 0
          size_mb := round2 ((1000 : ℚ) / (1024 * 1024)) }) := by
  simp [process, cleanDoc_length, fileB]

/-- C8 amended: compression runs only when `merge=true` AND more than
one file was processed.  A single-file batch returns the redacted file
uncompressed, independent of `compress` and of Ghostscript's state;
with at least two files and `compress=true`, a successful Ghostscript
run's output is returned. -/
theorem C8_amended :
    (∀ (pr : PDFProcessor) (f : Document) (sz : Document → Nat)
       (rt rq c : Bool) (gs : GsOutcome),
      process pr [f] sz rt rq true c gs =
        Except.ok (cleanDoc pr rt rq f,
          { pages := f.length
            files := 1
            watermarks := 0
            size_mb := round2 ((sz (cleanDoc pr rt rq f) : ℚ) / (1024 * 1024)) })) ∧
    (∀ (pr : PDFProcessor) (f1 f2 : Document) (rest : List Document)
       (sz : Document → Nat) (rt rq : Bool) (d : Document),
      process pr (f1 :: f2 :: rest) sz rt rq true true (GsOutcome.ok d) =
        Except.ok (d,
          { pages :=
              (((f1 :: f2 :: rest).map (cleanDoc pr rt rq)).map List.length).sum
            files := rest.length + 2
            watermarks := 0
            size_mb := round2 ((sz d : ℚ) / (1024 * 1024)) })) := by
  constructor
  · intro pr f sz rt rq c gs
    simp [process, cleanDoc_length]
  · intro pr f1 f2 rest sz rt rq d
    simp [process]

/-- C2: when Ghostscript fails, `process` does not return the
uncompressed merged document — it raises.  On a non-zero exit,
`_compress_pdf` returns `merged_path` itself, `process` then removes
`merged_path` (the very file `final_path` names) and the final
`os.path.getsize(final_path)` raises `FileNotFoundError`; with the `gs`
binary missing, `subprocess.run` raises `FileNotFoundError`, which the
`except CalledProcessError` clause does not catch. -/
theorem C2_compressionFailureRaises :
    process PDFProcessor.init [fileA, fileB] (fun _ => 1000) true true true true
        GsOutcome.exitNonZero =
      Except.error "FileNotFoundError: final_path was removed" ∧
    process PDFProcessor.init [fileA, fileB] (fun _ => 1000) true true true true
        GsOutcome.missing =
      Except.error "FileNotFoundError: gs" := by
  constructor <;> simp [process]

/-- C9 counterexample: on the `merge=false` early-return path the
`size_mb` field is NOT rounded — with a 1-byte output the returned value
is `1/1048576`, whereas rounding to 2 decimals would give `0`. -/
theorem C9_counterexample :
    (process PDFProcessor.init [fileA] (fun _ => 1) true true false true
        GsOutcome.missing).map (fun r => r.2.size_mb) =
      Except.ok (1 / 1048576) ∧
    round2 (1 / 1048576) = 0 ∧
    (1 / 1048576 : ℚ) ≠ round2 (1 / 1048576) := by
  refine ⟨?_, ?_, ?_⟩
  · simp only [process, Except.map]
    norm_num
  · norm_num [round2, round_eq]
  · norm_num [round2, round_eq]

/-- C9 amended: `size_mb` is the byte size divided by 1024², rounded to
2 decimals on the normal return paths, but UNROUNDED on the
`merge=false` early-return path. -/
theorem C9_amended :
    (∀ (pr : PDFProcessor) (f0 : Document) (rest : List Document)
       (sz : Document → Nat) (rt rq c : Bool) (gs : GsOutcome),
      (process pr (f0 :: rest) sz rt rq false c gs).map (fun r => r.2.size_mb) =
        Except.ok ((sz (cleanDoc pr rt rq f0) : ℚ) / (1024 * 1024))) ∧
    (∀ (pr : PDFProcessor) (f : Document) (sz : Document → Nat)
       (rt rq c : Bool) (gs : GsOutcome),
      (process pr [f] sz rt rq true c gs).map (fun r => r.2.size_mb) =
        Except.ok (round2 ((sz (cleanDoc pr rt rq f) : ℚ) / (1024 * 1024)))) ∧
    (∀ (pr : PDFProcessor) (f1 f2 : Document) (rest : List Document)
       (sz : Document → Nat) (rt rq : Bool) (gs : GsOutcome),
      (process pr (f1 :: f2 :: rest) sz rt rq true false gs).map
          (fun r => r.2.size_mb) =
        Except.ok (round2
          ((sz (mergePdfs ((f1 :: f2 :: rest).map (cleanDoc pr rt rq))) : ℚ) /
            (1024 * 1024)))) := by
  refine ⟨?_, ?_, ?_⟩
  · intro pr f0 rest sz rt rq c gs
    simp [process, Except.map]
  · intro pr f sz rt rq c gs
    simp [process, Except.map]
  · intro pr f1 f2 rest sz rt rq gs
    simp [process, Except.map]

/-- C4 counterexample: on a placement passing `scan_pdf`'s three checks
but failing the Redactor's relative-height bound (30×100 units at
(500, 600) on a 600×800 page, `rel_height = 0.125 ≥ 0.12`), `scan_pdf`
sets `has_qr_watermark` and records the placement while the Redactor's
heuristic rejects it and `_remove_watermarks` redacts nothing. -/
theorem C4_counterexample :
    (scanPdf PDFProcessor.init docC4).map
        (fun rep => (rep.has_qr_watermark, rep.image_details.length)) =
      Except.ok (true, 1) ∧
    isWatermarkRect 600 800 rectC4 = false ∧
    (removeWatermarks PDFProcessor.init false true docC4).2 = 0 := by
  refine ⟨?_, ?_, ?_⟩
  · norm_num [scanPdf, docC4, pageImageDetails, Page.getImageRects,
      scanIsWatermark, rectC4, Rect.width, Rect.height, firstPageTextDetails,
      List.enum, List.enumFrom, Except.map]
  · norm_num [isWatermarkRect, rectC4, Rect.width, Rect.height]
  · norm_num [removeWatermarks, redactPage, qrRedactions, Page.getImageRects,
      isWatermarkRect, rectC4, docC4, Rect.width, Rect.height]

/-- C4 amended: `scan_pdf`'s image classifier checks only the three
conditions rel_y > 0.70, rel_x > 0.65 and area < 20000 — it omits the
Redactor's relative-height bound.  `has_qr_watermark` is set exactly
when some placement passes that three-condition test, and every
placement the Redactor's heuristic accepts is also accepted by
`scan_pdf` (but not conversely). -/
theorem C4_amended :
    (∀ (pr : PDFProcessor) (p0 : Page) (rest : List Page),
      (scanPdf pr (p0 :: rest)).map (fun rep => rep.has_qr_watermark) =
        Except.ok ((p0 :: rest).any fun p => p.images.any fun img =>
          (p.getImageRects img.xref).any (scanIsWatermark p.width p.height))) ∧
    (∀ (pw ph : ℚ) (r : Rect),
      scanIsWatermark pw ph r = true ↔
        (r.y0 / ph > 0.7 ∧ r.x0 / pw > 0.65 ∧ r.width * r.height < 20000)) ∧
    (∀ (pw ph : ℚ) (r : Rect),
      isWatermarkRect pw ph r = true → scanIsWatermark pw ph r = true) := by
  refine ⟨fun pr p0 rest => rfl, ?_, ?_⟩
  · intro pw ph r
    simp only [scanIsWatermark, Bool.and_eq_true, decide_eq_true_eq]
    tauto
  · intro pw ph r h
    simp only [isWatermarkRect, Bool.and_eq_true, decide_eq_true_eq] at h
    simp only [scanIsWatermark, Bool.and_eq_true, decide_eq_true_eq]
    tauto

theorem C4_amended_witness :
    scanIsWatermark 600 800 rectC4 = true :=
  (C4_amended.2.1 600 800 rectC4).mpr
    (by norm_num [rectC4, Rect.width, Rect.height])

/-- C1 counterexample: in the spec's two-file scenario the returned
`watermarks` is 0, not the number of redactions performed and not ≥ 2:
`process` initialises `total_watermarks = 0` and never adds the per-file
counters `_remove_watermarks` computes.  (Those counters total 1 here —
file A's text match; file B's 100×100 image on an 800-unit page has
relative height 0.125, failing the < 0.12 bound.) -/
theorem C1_counterexample :
    (process PDFProcessor.init [fileA, fileB] (fun _ => 1000) true true true false
        GsOutcome.missing).map (fun r => r.2.watermarks) = Except.ok 0 ∧
    totalRedactions PDFProcessor.init true true [fileA, fileB] = 1 := by
  constructor
  · simp [process, Except.map]
  · norm_num [totalRedactions, removeWatermarks, redactPage, qrRedactions,
      Page.getImageRects, hasWatermarkText, PDFProcessor.init, strLower,
      containsSub, isWatermarkRect, Rect.width, Rect.height, fileA, fileB]

/-- C1 amended: on every successful return of `process` the `watermarks`
field is 0 — the per-file counters are computed but never aggregated —
and in the spec's two-file scenario the redactor actually performs
exactly 1 redaction (so even the intended aggregate would be 1, not
≥ 2, the image failing the relative-height bound). -/
theorem C1_amended :
    (∀ (pr : PDFProcessor) (files : List Document) (sz : Document → Nat)
       (rt rq m c : Bool) (gs : GsOutcome) (out : Document) (s : Stats),
      process pr files sz rt rq m c gs = Except.ok (out, s) →
        s.watermarks = 0) ∧
    totalRedactions PDFProcessor.init true true [fileA, fileB] = 1 := by
  constructor
  · intro pr files sz rt rq m c gs out s h
    match files with
    | [] => simp [process] at h
    | f0 :: rest =>
      simp only [process] at h
      repeat' split at h
      all_goals simp_all
      all_goals (obtain ⟨-, rfl⟩ := h; rfl)
  · norm_num [totalRedactions, removeWatermarks, redactPage, qrRedactions,
      Page.getImageRects, hasWatermarkText, PDFProcessor.init, strLower,
      containsSub, isWatermarkRect, Rect.width, Rect.height, fileA, fileB]

theorem C1_amended_witness :
    ({ pages := 1, files := 1, watermarks := 0, size_mb := 0 } : Stats).watermarks
        = 0 ∧
    totalRedactions PDFProcessor.init true true [fileA, fileB] = 1 :=
  ⟨C1_amended.1 PDFProcessor.init [[pageEmpty]] (fun _ => 0) true true false false
      GsOutcome.missing (cleanDoc PDFProcessor.init true true [pageEmpty])
      { pages := 1, files := 1, watermarks := 0, size_mb := 0 }
      (by simp [process, cleanDoc_length]),
   C1_amended.2⟩
